import Mathlib

/-!
Shallow embedding of the GnuCash CSV importer transaction-property core
(gnc-imp-props-tx.hpp / gnc-imp-props-tx.cpp): the `GncTransPropType`
catalog, the monetary / reconcile / commodity parsers, the `GncPreTrans`
and `GncPreSplit` property accumulators and their materialization into a
`DraftTransaction`.

External collaborators (the date parser `GncDate`, the locale amount
parser `xaccParseAmountPosSign`, the reconcile-state labels
`gnc_get_reconcile_str`, the account resolvers, the commodity table and
the price database) are modelled as an explicit `Env` of functions.
`GncNumeric` values are modelled as exact rationals (`Rat`), commodities
and accounts as records tagged with identities so that pointer equality
becomes id equality. C++ exceptions become an `Option String` result
component carrying the raised message; diagnostics written with
PWARN/PERR are returned as a log list.
-/

set_option autoImplicit false

namespace GnucashImp

/-- Enumeration of CSV column types, from `enum class GncTransPropType`. -/
inductive GncTransPropType where
  | NONE
  | UNIQUE_ID
  | DATE
  | NUM
  | DESCRIPTION
  | NOTES
  | COMMODITY
  | VOID_REASON
  | ACTION
  | ACCOUNT
  | AMOUNT
  | AMOUNT_NEG
  | PRICE
  | MEMO
  | REC_STATE
  | REC_DATE
  | TACTION
  | TACCOUNT
  | T_AMOUNT
  | T_AMOUNT_NEG
  | TMEMO
  | TREC_STATE
  | TREC_DATE
deriving DecidableEq, Repr

open GncTransPropType

/-- A commodity: identity stands for the (namespace, mnemonic) pair, so
`gnc_commodity_equiv` is id equality; `currency` is
`gnc_commodity_is_currency`. -/
structure Commodity where
  id : Nat
  currency : Bool
deriving DecidableEq, Repr

/-- An account with its commodity (`xaccAccountGetCommodity`). -/
structure Account where
  id : Nat
  commodity : Commodity
deriving DecidableEq, Repr

/-- A stored price record as returned by
`gnc_pricedb_lookup_nearest_in_time64`: `gnc_price_get_value` and
`gnc_price_get_currency`. -/
structure PriceRec where
  value : Rat
  currency : Commodity
deriving DecidableEq, Repr

/-- `gnc_commodity_equiv` on possibly-null commodity pointers: two null
pointers are equal pointers (true), null against non-null is false,
otherwise the commodities are compared. -/
def gnc_commodity_equiv : Option Commodity → Option Commodity → Bool
  | none, none => true
  | some a, some b => decide (a = b)
  | _, _ => false

/-- Exact rational addition in kernel-reducible form (shown equal to
`Rat` addition in `ratAdd_eq`); used for `GncNumeric` arithmetic so that
concrete runs evaluate. -/
def ratAdd (a b : Rat) : Rat :=
  mkRat (a.num * b.den + b.num * a.den) (a.den * b.den)

/-- Exact rational subtraction (shown equal to `Rat` subtraction in
`ratSub_eq`). -/
def ratSub (a b : Rat) : Rat :=
  mkRat (a.num * b.den - b.num * a.den) (a.den * b.den)

/-- Exact rational multiplication (shown equal to `Rat` multiplication
in `ratMul_eq`). -/
def ratMul (a b : Rat) : Rat :=
  mkRat (a.num * b.num) (a.den * b.den)

/-- Exact rational inverse, `GncNumeric::inv` (shown equal to `Rat`
inverse in `ratInv_eq`). -/
def ratInv (a : Rat) : Rat :=
  Rat.divInt (Int.ofNat a.den) a.num

/-- External collaborators of the importer core, as abstract functions. -/
structure Env where
  /-- `GncDate(value, GncDate::c_formats[date_format].m_fmt)`: parses a
  date string under a format selector, or throws (the error message). -/
  parseDate : Nat → String → Except String Nat
  /-- `xaccParseAmountPosSign` under the current locale (currency format
  selector 0). -/
  localeParseAmount : String → Option Rat
  /-- `gnc_get_reconcile_str` for each reconcile flag character. -/
  reconcileStr : Char → String
  /-- `gnc_csv_account_map_search`: the import-session account map. -/
  acctMapSearch : String → Option Account
  /-- `gnc_account_lookup_by_full_name` against the current root. -/
  acctLookupByFullName : String → Option Account
  /-- `gnc_commodity_table_lookup_unique`. -/
  commLookupUnique : String → Option Commodity
  /-- `gnc_commodity_table_lookup` by (namespace, mnemonic). -/
  commLookup : String → String → Option Commodity
  /-- `gnc_commodity_table_get_namespaces`, in deterministic order. -/
  commNamespaces : List String
  /-- `gnc_pricedb_lookup_nearest_in_time64 (db, commodity, currency,
  time)`, yielding the price value and the price currency. -/
  priceLookup : Option Commodity → Commodity → Nat → Option PriceRec

/-- The `gnc_csv_col_type_strs` map: fixed label for each column type. -/
def col_type_str : GncTransPropType → String
  | .NONE => "None"
  | .UNIQUE_ID => "Transaction ID"
  | .DATE => "Date"
  | .NUM => "Number"
  | .DESCRIPTION => "Description"
  | .NOTES => "Notes"
  | .COMMODITY => "Transaction Commodity"
  | .VOID_REASON => "Void Reason"
  | .ACTION => "Action"
  | .ACCOUNT => "Account"
  | .AMOUNT => "Amount"
  | .AMOUNT_NEG => "Amount (Negated)"
  | .PRICE => "Price"
  | .MEMO => "Memo"
  | .REC_STATE => "Reconciled"
  | .REC_DATE => "Reconcile Date"
  | .TACTION => "Transfer Action"
  | .TACCOUNT => "Transfer Account"
  | .T_AMOUNT => "Transfer Amount"
  | .T_AMOUNT_NEG => "Transfer Amount (Negated)"
  | .TMEMO => "Transfer Memo"
  | .TREC_STATE => "Transfer Reconciled"
  | .TREC_DATE => "Transfer Reconcile Date"

/-- `multi_col_props`: properties assignable to multiple columns. -/
def multi_col_props : List GncTransPropType :=
  [AMOUNT, AMOUNT_NEG, T_AMOUNT, T_AMOUNT_NEG]

/-- `is_multi_col_prop`. -/
def is_multi_col_prop (prop : GncTransPropType) : Bool :=
  multi_col_props.contains prop

/-- `twosplit_blacklist`. -/
def twosplit_blacklist : List GncTransPropType := [UNIQUE_ID]

/-- `multisplit_blacklist`. -/
def multisplit_blacklist : List GncTransPropType :=
  [TACTION, TACCOUNT, T_AMOUNT, T_AMOUNT_NEG, TMEMO, TREC_STATE, TREC_DATE]

/-- `sanitize_trans_prop`. -/
def sanitize_trans_prop (prop : GncTransPropType) (multi_split : Bool) :
    GncTransPropType :=
  let bl := if multi_split then multisplit_blacklist else twosplit_blacklist
  if bl.contains prop then NONE else prop

/-- The error map `ErrMap = std::map<const GncTransPropType, std::string>`,
as an association list (only erase / emplace / lookup / emptiness are
exercised, so ordering is immaterial). -/
abbrev ErrMap := List (GncTransPropType × String)

/-- `m_errors.erase(prop_type)`. -/
def errErase (m : ErrMap) (p : GncTransPropType) : ErrMap :=
  List.filter (fun kv => decide (kv.1 ≠ p)) m

/-- `m_errors.emplace(prop_type, str)`: inserts only when the key is
absent, as `std::map::emplace` does. -/
def errEmplace (m : ErrMap) (p : GncTransPropType) (s : String) : ErrMap :=
  if (List.find? (fun kv => decide (kv.1 = p)) m).isSome then m
  else m ++ [(p, s)]

/-- Lookup in the error map. -/
def errLookup (m : ErrMap) (p : GncTransPropType) : Option String :=
  (List.find? (fun kv => decide (kv.1 = p)) m).map Prod.snd

/-- `errors().empty()`. -/
def errEmpty (m : ErrMap) : Bool :=
  match m with
  | [] => true
  | _ :: _ => false

/-- Equality of parse results is decidable. -/
instance {e r : Type} [DecidableEq e] [DecidableEq r] :
    DecidableEq (Except e r) := fun a b =>
  match a, b with
  | .ok x, .ok y => decidable_of_iff (x = y) (by simp)
  | .error x, .error y => decidable_of_iff (x = y) (by simp)
  | .ok _, .error _ => isFalse (by simp)
  | .error _, .ok _ => isFalse (by simp)

/-- Whether a string contains a decimal digit: the
`boost::regex_search(str, boost::regex("[0-9]"))` test. -/
def hasDigit (s : String) : Bool :=
  s.data.any (fun c => decide ('0' ≤ c) && decide (c ≤ '9'))

/-- The boost `[[:Sc:]]` currency-symbol strip, modelled over the common
currency-symbol code points (the Unicode Sc table itself is external
data; no digit, sign, separator or letter is in Sc). -/
def isCurrencySymbol (c : Char) : Bool :=
  c = '$' || c = '¢' || c = '£' || c = '¤' || c = '¥' || c = '€' ||
  c = '₹' || c = '₩' || c = '₪' || c = '₫' || c = '₱' || c = '฿'

/-- Remove every currency-symbol character:
`boost::u32regex_replace(str, [[:Sc:]], "")`. -/
def stripCurrencySymbols (s : String) : String :=
  String.mk (s.data.filter (fun c => !isCurrencySymbol c))

/-- Modelled from the spec: `xaccParseAmountExtended` (engine helper, not
part of this excerpt) parsing "the remainder per the selected convention
into an exact rational amount". The convention fixes the decimal point
`dec` and the group separator `grp`; characters of the ignore list
("$" and "+") are skipped, a leading "-" negates, group separators are
dropped, and the digits around at most one decimal point form the
rational value; a string with anything else (or no digits) fails. -/
def parseAmountExtended (dec grp : Char) (s : String) : Option Rat :=
  let cs := s.data.filter (fun c => !(c = '$' || c = '+' || c = grp))
  let (neg, body) :=
    match cs with
    | '-' :: rest => (true, rest)
    | rest => (false, rest)
  let intPart := body.takeWhile (fun c => c.isDigit)
  let rest := body.dropWhile (fun c => c.isDigit)
  let fracPart? : Option (List Char) :=
    match rest with
    | [] => some []
    | c :: rest2 =>
        if c = dec ∧ rest2.all (fun d => d.isDigit) then some rest2
        else none
  match fracPart? with
  | none => none
  | some fracPart =>
      if intPart.isEmpty ∧ fracPart.isEmpty then none
      else
        let digits := intPart ++ fracPart
        let n : Nat := digits.foldl (fun a c => 10 * a + (c.toNat - 48)) 0
        let q : Rat := mkRat (Int.ofNat n) (Nat.pow 10 fracPart.length)
        some (if neg then -q else q)

/-- Error text of the no-digit rejection in `parse_monetary`. -/
def msgNoValidNumber : String :=
  "Value doesn\x27t appear to contain a valid number."

/-- Error text of the per-convention parse failure in `parse_monetary`. -/
def msgBadCurrencyFormat : String :=
  "Value can\x27t be parsed into a number using the selected currency format."

/-- `parse_monetary (str, currency_format)`: empty string is zero; a
string without digits is rejected; otherwise currency symbols are
stripped and the string is parsed under the selected convention
(0 = locale, 1 = period decimal, 2 = comma decimal; any other selector
falls through the switch and yields the zero-initialized value). -/
def parse_monetary (env : Env) (str : String) (currency_format : Nat) :
    Except String Rat :=
  if str.isEmpty then .ok 0
  else if !hasDigit str then .error msgNoValidNumber
  else
    let str_no_symbols := stripCurrencySymbols str
    match currency_format with
    | 0 =>
        match env.localeParseAmount str_no_symbols with
        | some v => .ok v
        | none => .error msgBadCurrencyFormat
    | 1 =>
        match parseAmountExtended '.' ',' str_no_symbols with
        | some v => .ok v
        | none => .error msgBadCurrencyFormat
    | 2 =>
        match parseAmountExtended ',' '.' str_no_symbols with
        | some v => .ok v
        | none => .error msgBadCurrencyFormat
    | _ => .ok 0

/-- Error text of the reconcile-state parse failure. -/
def msgBadReconcile : String :=
  "Value can\x27t be parsed into a valid reconcile state."

/-- `parse_reconciled`: matches the string against the locale reconcile
labels; the voided flag is mapped to not-reconciled at this layer. -/
def parse_reconciled (env : Env) (reconcile : String) : Except String Char :=
  if reconcile = env.reconcileStr 'n' then .ok 'n'
  else if reconcile = env.reconcileStr 'c' then .ok 'c'
  else if reconcile = env.reconcileStr 'y' then .ok 'y'
  else if reconcile = env.reconcileStr 'f' then .ok 'f'
  else if reconcile = env.reconcileStr 'v' then .ok 'n'
  else .error msgBadReconcile

/-- Error text of the commodity parse failure. -/
def msgBadCommodity : String :=
  "Value can\x27t be parsed into a valid commodity."

/-- The currency namespace name `GNC_COMMODITY_NS_CURRENCY`. -/
def NS_CURRENCY : String := "CURRENCY"

/-- `parse_commodity`: empty string resolves to no commodity; otherwise
try the unique name, then the currency-namespace mnemonic, then the
mnemonic in every other namespace in table order; no match throws. -/
def parse_commodity (env : Env) (comm_str : String) :
    Except String (Option Commodity) :=
  if comm_str.isEmpty then .ok none
  else
    let comm := env.commLookupUnique comm_str
    let comm :=
      match comm with
      | some c => some c
      | none => env.commLookup NS_CURRENCY comm_str
    let comm :=
      match comm with
      | some c => some c
      | none =>
          env.commNamespaces.findSome? (fun ns =>
            if ns = NS_CURRENCY then none else env.commLookup ns comm_str)
    match comm with
    | some c => .ok (some c)
    | none => .error msgBadCommodity

/-- One split record created through `trans_add_split` /
`xaccMallocSplit`. -/
structure SplitRec where
  account : Option Account
  amount : Rat
  value : Rat
  action : Option String
  memo : Option String
  reconcile : Option Char
  reconcileDate : Option Nat
deriving DecidableEq, Repr

/-- The transaction record built by `GncPreTrans::create_trans`
(`xaccMallocTransaction` plus the `xaccTransSet...` calls) and extended
by `trans_add_split`. -/
structure Transaction where
  currency : Commodity
  datePosted : Nat
  num : Option String
  description : Option String
  notes : Option String
  splits : List SplitRec
deriving DecidableEq, Repr

/-- `struct DraftTransaction`: owns the transaction plus the deferred
transfer-split hints for the generic import matcher. -/
structure DraftTransaction where
  trans : Transaction
  m_price : Option Rat := none
  m_taction : Option String := none
  m_tmemo : Option String := none
  m_tamount : Option Rat := none
  m_taccount : Option Account := none
  m_trec_state : Option Char := none
  m_trec_date : Option Nat := none
  void_reason : Option String := none
deriving DecidableEq, Repr

/-- `struct GncPreTrans`: the transaction property accumulator. -/
structure GncPreTrans where
  m_date_format : Nat
  m_multi_split : Bool
  m_differ : Option String := none
  m_date : Option Nat := none
  m_num : Option String := none
  m_desc : Option String := none
  m_notes : Option String := none
  m_commodity : Option Commodity := none
  m_void_reason : Option String := none
  created : Bool := false
  m_errors : ErrMap := []
deriving DecidableEq, Repr

/-- `struct GncPreSplit`: the split property accumulator. -/
structure GncPreSplit where
  m_date_format : Nat
  m_currency_format : Nat
  m_action : Option String := none
  m_account : Option Account := none
  m_amount : Option Rat := none
  m_amount_neg : Option Rat := none
  m_price : Option Rat := none
  m_memo : Option String := none
  m_rec_state : Option Char := none
  m_rec_date : Option Nat := none
  m_taction : Option String := none
  m_taccount : Option Account := none
  m_tamount : Option Rat := none
  m_tamount_neg : Option Rat := none
  m_tmemo : Option String := none
  m_trec_state : Option Char := none
  m_trec_date : Option Nat := none
  created : Bool := false
  m_errors : ErrMap := []
deriving DecidableEq, Repr

/-- The catch-block formatting `bl::format ("{1}: {2}") % label % cause`:
label of the property, a colon and the cause. -/
def fmtErr (label cause : String) : String := label ++ ": " ++ cause

/-- The catch blocks of `GncPreTrans::set`: record the formatted message
under the property type and rethrow it. The first component is the bag
as mutated so far (field clears survive the throw), the second the
raised message. -/
def ptFail (pt : GncPreTrans) (prop : GncTransPropType) (cause : String) :
    GncPreTrans × Option String :=
  let e := fmtErr (col_type_str prop) cause
  ({ pt with m_errors := errEmplace pt.m_errors prop e }, some e)

/-- Message thrown when `DATE` is assigned empty outside multi-split
mode (the `bl::format` pattern has no placeholder, so the extra label
argument is dropped). -/
def msgDateEmpty : String :=
  "Date field can not be empty if \x27Multi-split\x27 option is unset.\n"

/-- Message thrown when `DESCRIPTION` is assigned empty outside
multi-split mode. -/
def msgDescEmpty : String :=
  "Description field can not be empty if \x27Multi-split\x27 option is unset.\n"

/-- `GncPreTrans::set (prop_type, value)`: drops any existing error for
the property, dispatches per type, and on a parse/validation failure
records the formatted error and rethrows it (second component). -/
def GncPreTrans.set (env : Env) (pt : GncPreTrans)
    (prop_type : GncTransPropType) (value : String) :
    GncPreTrans × Option String :=
  let pt := { pt with m_errors := errErase pt.m_errors prop_type }
  match prop_type with
  | .UNIQUE_ID =>
      ({ pt with m_differ := if value.isEmpty then none else some value },
       none)
  | .DATE =>
      let pt := { pt with m_date := none }
      if !value.isEmpty then
        match env.parseDate pt.m_date_format value with
        | .ok d => ({ pt with m_date := some d }, none)
        | .error cause => ptFail pt prop_type cause
      else if !pt.m_multi_split then
        ptFail pt prop_type msgDateEmpty
      else (pt, none)
  | .NUM =>
      ({ pt with m_num := if value.isEmpty then none else some value }, none)
  | .DESCRIPTION =>
      let pt := { pt with m_desc := none }
      if !value.isEmpty then ({ pt with m_desc := some value }, none)
      else if !pt.m_multi_split then
        ptFail pt prop_type msgDescEmpty
      else (pt, none)
  | .NOTES =>
      ({ pt with m_notes := if value.isEmpty then none else some value },
       none)
  | .COMMODITY =>
      let pt := { pt with m_commodity := none }
      match parse_commodity env value with
      | .ok c => ({ pt with m_commodity := c }, none)
      | .error cause => ptFail pt prop_type cause
  | .VOID_REASON =>
      ({ pt with
          m_void_reason := if value.isEmpty then none else some value },
       none)
  | _ =>
      (pt, none)

/-- `GncPreTrans::reset`: set the empty string and swallow any error,
also erasing the error the failed set may have recorded. -/
def GncPreTrans.reset (env : Env) (pt : GncPreTrans)
    (prop_type : GncTransPropType) : GncPreTrans :=
  let r := pt.set env prop_type ""
  match r.2 with
  | none => r.1
  | some _ => { r.1 with m_errors := errErase r.1.m_errors prop_type }

/-- `GncPreTrans::verify_essentials`. -/
def GncPreTrans.verify_essentials (pt : GncPreTrans) : List String :=
  (if pt.m_date.isNone then ["No valid date."] else []) ++
  (if pt.m_desc.isNone then ["No valid description."] else [])

/-- `GncPreTrans::errors`. -/
def GncPreTrans.errors (pt : GncPreTrans) : ErrMap := pt.m_errors

/-- `GncPreTrans::is_part_of (parent)`: every populated field must match
the parent and the parent must carry no errors; a null parent fails. -/
def GncPreTrans.is_part_of (pt : GncPreTrans)
    (parent : Option GncPreTrans) : Bool :=
  match parent with
  | none => false
  | some p =>
      (pt.m_differ.isNone || decide (pt.m_differ = p.m_differ)) &&
      (pt.m_date.isNone || decide (pt.m_date = p.m_date)) &&
      (pt.m_num.isNone || decide (pt.m_num = p.m_num)) &&
      (pt.m_desc.isNone || decide (pt.m_desc = p.m_desc)) &&
      (pt.m_notes.isNone || decide (pt.m_notes = p.m_notes)) &&
      (pt.m_commodity.isNone || decide (pt.m_commodity = p.m_commodity)) &&
      (pt.m_void_reason.isNone ||
        decide (pt.m_void_reason = p.m_void_reason)) &&
      errEmpty p.m_errors

/-- The PWARN line of `GncPreTrans::create_trans` when essentials are
missing. -/
def transEssentialsWarning (check : List String) : String :=
  List.foldl (fun a b => a ++ "\n• " ++ b)
    "Not creating transaction because essentials not set properly:" check

/-- `GncPreTrans::create_trans (book, currency)`: a no-op when already
created; declines (warning log) when essentials are missing; otherwise
builds the transaction record, marks the bag created and returns the
draft holder. The posted time of the date is kept abstract as the date
value itself. -/
def GncPreTrans.create_trans (pt : GncPreTrans) (currency : Commodity) :
    GncPreTrans × Option DraftTransaction × List String :=
  if pt.created then (pt, none, [])
  else
    let check := pt.verify_essentials
    if !check.isEmpty then
      (pt, none, [transEssentialsWarning check])
    else
      let curr :=
        match pt.m_commodity with
        | some c => if c.currency then c else currency
        | none => currency
      let tx : Transaction :=
        { currency := curr
          datePosted := pt.m_date.getD 0
          num := pt.m_num
          description := pt.m_desc
          notes := pt.m_notes
          splits := [] }
      ({ pt with created := true }, some { trans := tx }, [])

/-- Error text for an empty `ACCOUNT` value. -/
def msgAcctEmpty : String := "Account value can\x27t be empty."

/-- Error text for an unresolvable `ACCOUNT` value. -/
def msgAcctUnmapped : String :=
  "Account value can\x27t be mapped back to an account."

/-- Error text for an empty `TACCOUNT` value. -/
def msgTAcctEmpty : String := "Transfer account value can\x27t be empty."

/-- Error text for an unresolvable `TACCOUNT` value. -/
def msgTAcctUnmapped : String :=
  "Transfer account value can\x27t be mapped back to an account."

/-- The account resolution chain used for `ACCOUNT` / `TACCOUNT`:
`gnc_csv_account_map_search` first, then
`gnc_account_lookup_by_full_name`. -/
def lookupAccount (env : Env) (value : String) : Option Account :=
  match env.acctMapSearch value with
  | some a => some a
  | none => env.acctLookupByFullName value

/-- The catch blocks of `GncPreSplit::set` / `GncPreSplit::add`. -/
def psFail (ps : GncPreSplit) (prop : GncTransPropType) (cause : String) :
    GncPreSplit × Option String :=
  let e := fmtErr (col_type_str prop) cause
  ({ ps with m_errors := errEmplace ps.m_errors prop e }, some e)

/-- `GncPreSplit::set (prop_type, value)`. -/
def GncPreSplit.set (env : Env) (ps : GncPreSplit)
    (prop_type : GncTransPropType) (value : String) :
    GncPreSplit × Option String :=
  let ps := { ps with m_errors := errErase ps.m_errors prop_type }
  match prop_type with
  | .ACTION =>
      ({ ps with m_action := if value.isEmpty then none else some value },
       none)
  | .TACTION =>
      ({ ps with m_taction := if value.isEmpty then none else some value },
       none)
  | .ACCOUNT =>
      let ps := { ps with m_account := none }
      if value.isEmpty then psFail ps prop_type msgAcctEmpty
      else
        match lookupAccount env value with
        | some acct => ({ ps with m_account := some acct }, none)
        | none => psFail ps prop_type msgAcctUnmapped
  | .TACCOUNT =>
      let ps := { ps with m_taccount := none }
      if value.isEmpty then psFail ps prop_type msgTAcctEmpty
      else
        match lookupAccount env value with
        | some acct => ({ ps with m_taccount := some acct }, none)
        | none => psFail ps prop_type msgTAcctUnmapped
  | .MEMO =>
      ({ ps with m_memo := if value.isEmpty then none else some value },
       none)
  | .TMEMO =>
      ({ ps with m_tmemo := if value.isEmpty then none else some value },
       none)
  | .AMOUNT =>
      let ps := { ps with m_amount := none }
      match parse_monetary env value ps.m_currency_format with
      | .ok v => ({ ps with m_amount := some v }, none)
      | .error cause => psFail ps prop_type cause
  | .AMOUNT_NEG =>
      let ps := { ps with m_amount_neg := none }
      match parse_monetary env value ps.m_currency_format with
      | .ok v => ({ ps with m_amount_neg := some v }, none)
      | .error cause => psFail ps prop_type cause
  | .T_AMOUNT =>
      let ps := { ps with m_tamount := none }
      match parse_monetary env value ps.m_currency_format with
      | .ok v => ({ ps with m_tamount := some v }, none)
      | .error cause => psFail ps prop_type cause
  | .T_AMOUNT_NEG =>
      let ps := { ps with m_tamount_neg := none }
      match parse_monetary env value ps.m_currency_format with
      | .ok v => ({ ps with m_tamount_neg := some v }, none)
      | .error cause => psFail ps prop_type cause
  | .PRICE =>
      let ps := { ps with m_price := none }
      match parse_monetary env value ps.m_currency_format with
      | .ok v => ({ ps with m_price := some v }, none)
      | .error cause => psFail ps prop_type cause
  | .REC_STATE =>
      let ps := { ps with m_rec_state := none }
      match parse_reconciled env value with
      | .ok c => ({ ps with m_rec_state := some c }, none)
      | .error cause => psFail ps prop_type cause
  | .TREC_STATE =>
      let ps := { ps with m_trec_state := none }
      match parse_reconciled env value with
      | .ok c => ({ ps with m_trec_state := some c }, none)
      | .error cause => psFail ps prop_type cause
  | .REC_DATE =>
      let ps := { ps with m_rec_date := none }
      if !value.isEmpty then
        match env.parseDate ps.m_date_format value with
        | .ok d => ({ ps with m_rec_date := some d }, none)
        | .error cause => psFail ps prop_type cause
      else (ps, none)
  | .TREC_DATE =>
      let ps := { ps with m_trec_date := none }
      if !value.isEmpty then
        match env.parseDate ps.m_date_format value with
        | .ok d => ({ ps with m_trec_date := some d }, none)
        | .error cause => psFail ps prop_type cause
      else (ps, none)
  | _ =>
      (ps, none)

/-- `GncPreSplit::reset`. -/
def GncPreSplit.reset (env : Env) (ps : GncPreSplit)
    (prop_type : GncTransPropType) : GncPreSplit :=
  let r := ps.set env prop_type ""
  match r.2 with
  | none => r.1
  | some _ => { r.1 with m_errors := errErase r.1.m_errors prop_type }

/-- `GncPreSplit::add (prop_type, value)`: for the four amount-like
types the parsed value is added to any existing value; all other types
only get a diagnostic warning. -/
def GncPreSplit.add (env : Env) (ps : GncPreSplit)
    (prop_type : GncTransPropType) (value : String) :
    GncPreSplit × Option String :=
  let ps := { ps with m_errors := errErase ps.m_errors prop_type }
  match prop_type with
  | .AMOUNT =>
      match parse_monetary env value ps.m_currency_format with
      | .ok v =>
          let num_val :=
            match ps.m_amount with
            | some old => ratAdd v old
            | none => v
          ({ ps with m_amount := some num_val }, none)
      | .error cause => psFail ps prop_type cause
  | .AMOUNT_NEG =>
      match parse_monetary env value ps.m_currency_format with
      | .ok v =>
          let num_val :=
            match ps.m_amount_neg with
            | some old => ratAdd v old
            | none => v
          ({ ps with m_amount_neg := some num_val }, none)
      | .error cause => psFail ps prop_type cause
  | .T_AMOUNT =>
      match parse_monetary env value ps.m_currency_format with
      | .ok v =>
          let num_val :=
            match ps.m_tamount with
            | some old => ratAdd v old
            | none => v
          ({ ps with m_tamount := some num_val }, none)
      | .error cause => psFail ps prop_type cause
  | .T_AMOUNT_NEG =>
      match parse_monetary env value ps.m_currency_format with
      | .ok v =>
          let num_val :=
            match ps.m_tamount_neg with
            | some old => ratAdd v old
            | none => v
          ({ ps with m_tamount_neg := some num_val }, none)
      | .error cause => psFail ps prop_type cause
  | _ =>
      (ps, none)

/-- `GncPreSplit::verify_essentials`. -/
def GncPreSplit.verify_essentials (ps : GncPreSplit) : List String :=
  (if ps.m_amount.isNone && ps.m_amount_neg.isNone then
    ["No amount or negated amount column."] else []) ++
  (if (decide (ps.m_rec_state = some 'y')) && ps.m_rec_date.isNone then
    ["Split is reconciled but reconcile date column is missing or invalid."]
   else []) ++
  (if (decide (ps.m_trec_state = some 'y')) && ps.m_trec_date.isNone then
    ["Transfer split is reconciled but transfer reconcile date column is missing or invalid."]
   else [])

/-- `GncPreSplit::errors`. -/
def GncPreSplit.errors (ps : GncPreSplit) : ErrMap := ps.m_errors

/-- The reconcile flag stored by `trans_add_split`
(`xaccSplitSetReconcile` is called only for a state other than
not-reconciled). -/
def reconcileOf (rec_state : Option Char) : Option Char :=
  match rec_state with
  | some c => if c ≠ 'n' then some c else none
  | none => none

/-- The reconcile date stored by `trans_add_split`: only in the
reconciled state and when a date is present. -/
def reconcileDateOf (rec_state : Option Char) (rec_date : Option Nat) :
    Option Nat :=
  match rec_state, rec_date with
  | some c, some d => if c = 'y' then some d else none
  | _, _ => none

/-- `trans_add_split` (continued): builds the split record and appends
it to the transaction. -/
def trans_add_split (trans : Transaction) (account : Option Account)
    (amount value : Rat) (action memo : Option String)
    (rec_state : Option Char) (rec_date : Option Nat) : Transaction :=
  let split : SplitRec :=
    { account := account
      amount := amount
      value := value
      action := action
      memo := memo
      reconcile := reconcileOf rec_state
      reconcileDate := reconcileDateOf rec_state rec_date }
  { trans with splits := trans.splits ++ [split] }

/-- The PERR line of `GncPreSplit::create_split` when no price can be
found for the first split. -/
def msgNoPrice : String := "No price found, can\x27t create this split."

/-- The PWARN line when the transfer-side price resolution fails. -/
def msgNoPriceDefer : String :=
  "No price found, defer creation of second split to generic import matcher."

/-- The PWARN line of `GncPreSplit::create_split` when essentials are
missing. -/
def splitEssentialsWarning (check : List String) : String :=
  List.foldl (fun a b => a ++ "\n• " ++ b)
    "Not creating split because essentials not set properly:" check

/-- The value-resolution chain of `GncPreSplit::create_split` for the
first split: same commodity, transfer-amount shortcut, explicit price,
price-database lookup (multiplying or inverting by quote direction), or
the zero-initialized value with the PERR flag set. -/
def resolveValue (env : Env) (ps : GncPreSplit) (trans_curr : Commodity)
    (acct_comm : Option Commodity) (amount : Rat) (tamount : Option Rat)
    (time : Nat) : Rat × Bool :=
  if gnc_commodity_equiv (some trans_curr) acct_comm then (amount, false)
  else if (ps.m_tamount.isSome || ps.m_tamount_neg.isSome) &&
          ps.m_taccount.isSome &&
          gnc_commodity_equiv (some trans_curr)
            (ps.m_taccount.map Account.commodity) then
    (-(tamount.getD 0), false)
  else
    match ps.m_price with
    | some p => (ratMul amount p, false)
    | none =>
        match env.priceLookup acct_comm trans_curr time with
        | some nprice =>
            if gnc_commodity_equiv (some nprice.currency) (some trans_curr)
            then (ratMul amount nprice.value, false)
            else (ratMul amount (ratInv nprice.value), false)
        | none => (0, true)

/-- The transfer-amount resolution of `GncPreSplit::create_split` when a
transfer account is given but no transfer amount column was: same
commodity, explicit price inverted, or price-database lookup (inverted
or direct by quote direction); `none` with the warn flag when no price
exists. -/
def resolveTAmount (env : Env) (ps : GncPreSplit) (trans_curr : Commodity)
    (taccount : Account) (tvalue : Rat) (time : Nat) :
    Option Rat × Bool :=
  let tacct_comm := taccount.commodity
  if gnc_commodity_equiv (some trans_curr) (some tacct_comm) then
    (some tvalue, false)
  else
    match ps.m_price with
    | some p => (some (ratMul tvalue (ratInv p)), false)
    | none =>
        match env.priceLookup (some tacct_comm) trans_curr time with
        | some nprice =>
            if gnc_commodity_equiv (some nprice.currency) (some trans_curr)
            then (some (ratMul tvalue (ratInv nprice.value)), false)
            else (some (ratMul tvalue nprice.value), false)
        | none => (none, true)

/-- Result of `GncPreSplit::create_split`: the updated bag, the updated
draft transaction, and the PWARN/PERR diagnostics issued. -/
structure SplitRes where
  ps : GncPreSplit
  draft : DraftTransaction
  logs : List String
deriving DecidableEq, Repr

/-- The deferred-hint write-back executed when exactly one split was
created. -/
def deferHints (ps : GncPreSplit) (draft : DraftTransaction)
    (tamount : Option Rat) : DraftTransaction :=
  { draft with
      m_price := ps.m_price
      m_taction := ps.m_taction
      m_tmemo := ps.m_tmemo
      m_tamount := tamount
      m_taccount := ps.m_taccount
      m_trec_state := ps.m_trec_state
      m_trec_date := ps.m_trec_date }

/-- `GncPreSplit::create_split (draft_trans)`: a no-op when already
created; declines when essentials are missing; otherwise resolves the
net amount and value, adds the first split, then either adds the
transfer split or defers its data onto the draft transaction; finally
marks the bag created. -/
def GncPreSplit.create_split (env : Env) (ps : GncPreSplit)
    (draft : DraftTransaction) : SplitRes :=
  if ps.created then ⟨ps, draft, []⟩
  else
    let check := ps.verify_essentials
    if !check.isEmpty then ⟨ps, draft, [splitEssentialsWarning check]⟩
    else
      let account := ps.m_account
      let taccount := ps.m_taccount
      let amount := ratSub (ps.m_amount.getD 0) (ps.m_amount_neg.getD 0)
      let tamount : Option Rat :=
        if ps.m_tamount.isSome || ps.m_tamount_neg.isSome then
          some (ratSub (ps.m_tamount.getD 0) (ps.m_tamount_neg.getD 0))
        else none
      let trans_curr := draft.trans.currency
      let acct_comm := account.map Account.commodity
      let time := draft.trans.datePosted
      let vp := resolveValue env ps trans_curr acct_comm amount tamount time
      let value := vp.1
      let perrLogs : List String := if vp.2 then [msgNoPrice] else []
      let tx1 := trans_add_split draft.trans account amount value
        ps.m_action ps.m_memo ps.m_rec_state ps.m_rec_date
      match taccount with
      | none =>
          ⟨{ ps with created := true },
           deferHints ps { draft with trans := tx1 } tamount, perrLogs⟩
      | some tacct =>
          let tvalue := -value
          let tp :=
            if tamount.isNone then
              resolveTAmount env ps trans_curr tacct tvalue time
            else (tamount, false)
          let twarnLogs : List String :=
            if tp.2 then [msgNoPriceDefer] else []
          match tp.1 with
          | some ta =>
              let tx2 := trans_add_split tx1 (some tacct) ta tvalue
                ps.m_taction ps.m_tmemo ps.m_trec_state ps.m_trec_date
              ⟨{ ps with created := true }, { draft with trans := tx2 },
               perrLogs ++ twarnLogs⟩
          | none =>
              ⟨{ ps with created := true },
               deferHints ps { draft with trans := tx1 } none,
               perrLogs ++ twarnLogs⟩

/-- Whether the transaction-bag field targeted by a property type is
absent (types with no transaction field count as vacuously absent). -/
def GncPreTrans.fieldAbsent (pt : GncPreTrans) :
    GncTransPropType → Bool
  | .UNIQUE_ID => pt.m_differ.isNone
  | .DATE => pt.m_date.isNone
  | .NUM => pt.m_num.isNone
  | .DESCRIPTION => pt.m_desc.isNone
  | .NOTES => pt.m_notes.isNone
  | .COMMODITY => pt.m_commodity.isNone
  | .VOID_REASON => pt.m_void_reason.isNone
  | _ => true

/-- Whether every one of the seven transaction-bag fields is absent. -/
def GncPreTrans.fieldsEmpty (pt : GncPreTrans) : Bool :=
  pt.m_differ.isNone && pt.m_date.isNone && pt.m_num.isNone &&
  pt.m_desc.isNone && pt.m_notes.isNone && pt.m_commodity.isNone &&
  pt.m_void_reason.isNone

/-- Whether the split-bag field targeted by a property type is absent
(types with no split field count as vacuously absent). -/
def GncPreSplit.fieldAbsent (ps : GncPreSplit) :
    GncTransPropType → Bool
  | .ACTION => ps.m_action.isNone
  | .ACCOUNT => ps.m_account.isNone
  | .AMOUNT => ps.m_amount.isNone
  | .AMOUNT_NEG => ps.m_amount_neg.isNone
  | .PRICE => ps.m_price.isNone
  | .MEMO => ps.m_memo.isNone
  | .REC_STATE => ps.m_rec_state.isNone
  | .REC_DATE => ps.m_rec_date.isNone
  | .TACTION => ps.m_taction.isNone
  | .TACCOUNT => ps.m_taccount.isNone
  | .T_AMOUNT => ps.m_tamount.isNone
  | .T_AMOUNT_NEG => ps.m_tamount_neg.isNone
  | .TMEMO => ps.m_tmemo.isNone
  | .TREC_STATE => ps.m_trec_state.isNone
  | .TREC_DATE => ps.m_trec_date.isNone
  | _ => true

/-- The amount-like split-bag field addressed by one of the four
multi-column property types. -/
def GncPreSplit.amtField (ps : GncPreSplit) :
    GncTransPropType → Option Rat
  | .AMOUNT => ps.m_amount
  | .AMOUNT_NEG => ps.m_amount_neg
  | .T_AMOUNT => ps.m_tamount
  | .T_AMOUNT_NEG => ps.m_tamount_neg
  | _ => none

/-- A sample currency used by the concrete evaluations below. -/
def currUSD : Commodity := ⟨1, true⟩

/-- A sample foreign (non-currency) commodity. -/
def commFOO : Commodity := ⟨2, false⟩

/-- A second sample foreign commodity. -/
def commBAR : Commodity := ⟨3, false⟩

/-- A sample account denominated in the transaction currency. -/
def acctHome : Account := ⟨1, currUSD⟩

/-- A sample account denominated in the foreign commodity. -/
def acctFoo : Account := ⟨2, commFOO⟩

/-- A sample transfer account denominated in the second foreign
commodity. -/
def acctBar : Account := ⟨3, commBAR⟩

/-- A concrete environment with empty collaborators: no accounts, no
commodities, no prices, identity-letter reconcile labels, and a date
parser accepting only "2020-01-02". -/
def envW : Env :=
  { parseDate := fun _ s =>
      if s = "2020-01-02" then .ok 737 else .error "Bad date."
    localeParseAmount := fun _ => none
    reconcileStr := fun c => String.singleton c
    acctMapSearch := fun s => if s = "Assets" then some acctHome else none
    acctLookupByFullName := fun _ => none
    commLookupUnique := fun _ => none
    commLookup := fun _ _ => none
    commNamespaces := []
    priceLookup := fun _ _ _ => none }

/-- A concrete environment whose price database quotes `commFOO` in
`currUSD` at rate 2 (quote currency = the transaction currency) and
`commBAR` at rate 5 quoted in the opposite direction. -/
def envPrices : Env :=
  { envW with
      priceLookup := fun oc c _ =>
        if oc = some commFOO && c = currUSD then some ⟨2, currUSD⟩
        else if oc = some commBAR && c = currUSD then some ⟨5, commBAR⟩
        else none }

/-- A split bag holding only amount 100 against the foreign-commodity
account: the configuration of the terminal price-resolution failure. -/
def psForeign : GncPreSplit :=
  { m_date_format := 0
    m_currency_format := 1
    m_account := some acctFoo
    m_amount := some 100 }

/-- An empty draft transaction in `currUSD`. -/
def draftUSD : DraftTransaction :=
  { trans :=
    { currency := currUSD
      datePosted := 0
      num := none
      description := none
      notes := none
      splits := [] } }

/-- The split bag used by the price-direction witness: amount 100 in the
foreign account, transfer account in the second foreign commodity. -/
def psBoth : GncPreSplit :=
  { psForeign with m_taccount := some acctBar }

/-- An empty split bag under the period-decimal currency format. -/
def psEmpty : GncPreSplit :=
  { m_date_format := 0, m_currency_format := 1 }

/-- An empty transaction bag (single-split mode, date format 0). -/
def ptEmpty : GncPreTrans :=
  { m_date_format := 0, m_multi_split := false }

/-- A transaction bag with date and description set. -/
def ptReady : GncPreTrans :=
  { ptEmpty with m_date := some 737, m_desc := some "Groceries" }

/-- A transaction bag carrying a recorded error. -/
def ptErr : GncPreTrans :=
  { ptEmpty with m_errors := [(DATE, "Date: Bad date.")] }

/-- A transaction bag already materialized. -/
def ptCreated : GncPreTrans := { ptReady with created := true }

/-- A transaction bag with a date already stored (used to exhibit the
clear-on-failed-set behavior). -/
def ptDate : GncPreTrans := { ptEmpty with m_date := some 5 }

/-- A split bag with an amount already stored. -/
def psAmt : GncPreSplit := { psEmpty with m_amount := some 7 }

theorem find?_errErase (m : ErrMap) (p : GncTransPropType) :
    List.find? (fun kv => decide (kv.1 = p)) (errErase m p) = none := by
  rw [List.find?_eq_none]
  intro x hx
  have hx2 := (List.mem_filter.mp hx).2
  simp only [decide_eq_true_eq] at hx2 ⊢
  exact hx2

theorem errLookup_errErase (m : ErrMap) (p : GncTransPropType) :
    errLookup (errErase m p) p = none := by
  unfold errLookup
  rw [find?_errErase]
  rfl

theorem errLookup_errEmplace_errErase (m : ErrMap) (p : GncTransPropType)
    (s : String) :
    errLookup (errEmplace (errErase m p) p s) p = some s := by
  unfold errEmplace
  rw [find?_errErase]
  simp only [Option.isSome_none, Bool.false_eq_true, if_false]
  unfold errLookup
  rw [List.find?_append, find?_errErase]
  simp [List.find?]

theorem errEmpty_iff (m : ErrMap) : errEmpty m = true ↔ m = [] := by
  cases m <;> simp [errEmpty]

theorem ratAdd_eq (a b : Rat) : ratAdd a b = a + b :=
  (Rat.add_def' a b).symm

theorem ratSub_eq (a b : Rat) : ratSub a b = a - b :=
  (Rat.sub_def' a b).symm

theorem ratMul_eq (a b : Rat) : ratMul a b = a * b := by
  rw [Rat.mul_def, Rat.normalize_eq_mkRat]
  rfl

theorem ratInv_eq (a : Rat) : ratInv a = a⁻¹ := by
  rw [Rat.inv_def']
  rfl

/-- Claim C9: `is_part_of` applied to a null parent pointer returns
false, regardless of the bag's own fields or errors. -/
theorem c9_is_part_of_null (pt : GncPreTrans) :
    pt.is_part_of none = false := rfl

/-- Claim C3: `verify_essentials` on a transaction bag is empty iff both
the date and the description field hold values; otherwise it returns
exactly one missing-field message per absent mandatory field. -/
theorem c3_verify_essentials (pt : GncPreTrans) :
    (pt.verify_essentials = [] ↔ pt.m_date ≠ none ∧ pt.m_desc ≠ none) ∧
    (pt.m_date = none ↔ "No valid date." ∈ pt.verify_essentials) ∧
    (pt.m_desc = none ↔ "No valid description." ∈ pt.verify_essentials) ∧
    pt.verify_essentials.length =
      (if pt.m_date = none then 1 else 0) +
      (if pt.m_desc = none then 1 else 0) := by
  cases hd : pt.m_date <;> cases hs : pt.m_desc <;>
    simp [GncPreTrans.verify_essentials, hd, hs]

/-- Claim C2: for every currency-format selector in {0, 1, 2},
`parse_monetary` maps the empty string to zero, and any non-empty
string containing no digit character 0-9 to a parse error. -/
theorem c2_parse_monetary (env : Env) (fmt : Nat) (s : String)
    (hfmt : fmt = 0 ∨ fmt = 1 ∨ fmt = 2) :
    parse_monetary env "" fmt = .ok 0 ∧
    (s ≠ "" → (∀ c ∈ s.data, ¬('0' ≤ c ∧ c ≤ '9')) →
      parse_monetary env s fmt = .error msgNoValidNumber) := by
  refine ⟨by rfl, ?_⟩
  intro hne hnd
  have hie : s.isEmpty = false := by
    cases hs : s.isEmpty
    · rfl
    · exact absurd ((String.isEmpty_iff s).mp hs) hne
  have hd : hasDigit s = false := by
    unfold hasDigit
    rw [List.any_eq_false]
    intro c hc
    have := hnd c hc
    simp only [Bool.and_eq_true, decide_eq_true_eq]
    tauto
  unfold parse_monetary
  rw [hie, hd]
  simp

/-- Witness for C2 at selector 1 and the digit-free string "abc". -/
theorem c2_witness :
    parse_monetary envW "" 1 = .ok 0 ∧
    parse_monetary envW "abc" 1 = .error msgNoValidNumber := by
  have h := c2_parse_monetary envW 1 "abc" (Or.inr (Or.inl rfl))
  exact ⟨h.1, h.2 (by decide) (by decide)⟩

/-- Claim C4: `is_part_of (parent)` holds exactly when each of the seven
transaction fields is absent or equal to the parent's and the parent's
error map is empty; an all-empty bag passes against any error-free
parent, and a parent with errors never accepts any bag. -/
theorem c4_is_part_of (pt parent : GncPreTrans) :
    (pt.is_part_of (some parent) = true ↔
      ((pt.m_differ = none ∨ pt.m_differ = parent.m_differ) ∧
       (pt.m_date = none ∨ pt.m_date = parent.m_date) ∧
       (pt.m_num = none ∨ pt.m_num = parent.m_num) ∧
       (pt.m_desc = none ∨ pt.m_desc = parent.m_desc) ∧
       (pt.m_notes = none ∨ pt.m_notes = parent.m_notes) ∧
       (pt.m_commodity = none ∨ pt.m_commodity = parent.m_commodity) ∧
       (pt.m_void_reason = none ∨
         pt.m_void_reason = parent.m_void_reason) ∧
       parent.m_errors = [])) ∧
    (pt.fieldsEmpty = true → parent.m_errors = [] →
      pt.is_part_of (some parent) = true) ∧
    (parent.m_errors ≠ [] → pt.is_part_of (some parent) = false) := by
  have hmain : pt.is_part_of (some parent) = true ↔
      ((pt.m_differ = none ∨ pt.m_differ = parent.m_differ) ∧
       (pt.m_date = none ∨ pt.m_date = parent.m_date) ∧
       (pt.m_num = none ∨ pt.m_num = parent.m_num) ∧
       (pt.m_desc = none ∨ pt.m_desc = parent.m_desc) ∧
       (pt.m_notes = none ∨ pt.m_notes = parent.m_notes) ∧
       (pt.m_commodity = none ∨ pt.m_commodity = parent.m_commodity) ∧
       (pt.m_void_reason = none ∨
         pt.m_void_reason = parent.m_void_reason) ∧
       parent.m_errors = []) := by
    simp [GncPreTrans.is_part_of, errEmpty_iff, Option.isNone_iff_eq_none,
      and_assoc]
  refine ⟨hmain, ?_, ?_⟩
  · intro hfe herr
    have h := hfe
    unfold GncPreTrans.fieldsEmpty at h
    simp only [Bool.and_eq_true, Option.isNone_iff_eq_none] at h
    exact hmain.mpr ⟨Or.inl h.1.1.1.1.1.1, Or.inl h.1.1.1.1.1.2,
      Or.inl h.1.1.1.1.2, Or.inl h.1.1.1.2, Or.inl h.1.1.2,
      Or.inl h.1.2, Or.inl h.2, herr⟩
  · intro herr
    cases hip : pt.is_part_of (some parent)
    · rfl
    · exact absurd (hmain.mp hip).2.2.2.2.2.2.2 herr

/-- Witness for C4: the empty bag is part of an error-free parent, and
no bag is part of a parent carrying an error. -/
theorem c4_witness :
    ptEmpty.is_part_of (some ptReady) = true ∧
    ptReady.is_part_of (some ptErr) = false := by
  refine ⟨(c4_is_part_of ptEmpty ptReady).2.1 (by decide) (by decide), ?_⟩
  exact (c4_is_part_of ptReady ptErr).2.2 (by decide)

/-- Claim C10: a `set` call that fails leaves the target field absent on
both bag kinds — the field is cleared before parsing or resolving, so a
previously stored value never survives a failed assignment. -/
theorem c10_failed_set_clears_field (env : Env) (pt : GncPreTrans)
    (ps : GncPreSplit) (prop : GncTransPropType) (value : String) :
    (∀ e, (pt.set env prop value).2 = some e →
      (pt.set env prop value).1.fieldAbsent prop = true) ∧
    (∀ e, (ps.set env prop value).2 = some e →
      (ps.set env prop value).1.fieldAbsent prop = true) := by
  constructor
  · intro e he
    cases prop <;> simp only [GncPreTrans.set] at he ⊢ <;>
      (repeat' split at he) <;>
      simp_all [ptFail, GncPreTrans.fieldAbsent]
  · intro e he
    cases prop <;> simp only [GncPreSplit.set] at he ⊢ <;>
      (repeat' split at he) <;>
      simp_all [psFail, GncPreSplit.fieldAbsent]

/-- Witness for C10: a failed date re-assignment erases the stored date,
and a failed account assignment leaves the account absent. -/
theorem c10_witness :
    (GncPreTrans.set envW ptDate .DATE "nonsense").1.fieldAbsent .DATE
      = true ∧
    (GncPreSplit.set envW psAmt .AMOUNT "abc").1.fieldAbsent .AMOUNT
      = true := by
  constructor
  · exact (c10_failed_set_clears_field envW ptDate psAmt .DATE
      "nonsense").1 ("Date: Bad date.") (by decide)
  · exact (c10_failed_set_clears_field envW ptDate psAmt .AMOUNT
      "abc").2 ("Amount: " ++ msgNoValidNumber) (by decide)

/-- Claim C8: every `set`/`add` call first drops the recorded error for
the property (so a successful call leaves none), and a failing call
records under that property exactly the message it raises, which is the
field label followed by the cause. -/
theorem c8_error_bookkeeping (env : Env) (pt : GncPreTrans)
    (ps : GncPreSplit) (prop : GncTransPropType) (value : String) :
    ((pt.set env prop value).2 = none →
      errLookup (pt.set env prop value).1.m_errors prop = none) ∧
    (∀ e, (pt.set env prop value).2 = some e →
      errLookup (pt.set env prop value).1.m_errors prop = some e ∧
      ∃ cause, e = col_type_str prop ++ ": " ++ cause) ∧
    ((ps.set env prop value).2 = none →
      errLookup (ps.set env prop value).1.m_errors prop = none) ∧
    (∀ e, (ps.set env prop value).2 = some e →
      errLookup (ps.set env prop value).1.m_errors prop = some e ∧
      ∃ cause, e = col_type_str prop ++ ": " ++ cause) ∧
    ((ps.add env prop value).2 = none →
      errLookup (ps.add env prop value).1.m_errors prop = none) ∧
    (∀ e, (ps.add env prop value).2 = some e →
      errLookup (ps.add env prop value).1.m_errors prop = some e ∧
      ∃ cause, e = col_type_str prop ++ ": " ++ cause) := by
  refine ⟨?_, ?_, ?_, ?_, ?_, ?_⟩
  · intro he
    cases prop <;> simp only [GncPreTrans.set] at he ⊢ <;>
      (repeat' split at he) <;>
      simp_all [ptFail, errLookup_errErase]
  · intro e he
    cases prop <;> simp only [GncPreTrans.set] at he ⊢ <;>
      (repeat' split at he) <;>
      simp_all [ptFail, fmtErr, errLookup_errEmplace_errErase] <;>
      exact ⟨_, he.symm⟩
  · intro he
    cases prop <;> simp only [GncPreSplit.set] at he ⊢ <;>
      (repeat' split at he) <;>
      simp_all [psFail, errLookup_errErase]
  · intro e he
    cases prop <;> simp only [GncPreSplit.set] at he ⊢ <;>
      (repeat' split at he) <;>
      simp_all [psFail, fmtErr, errLookup_errEmplace_errErase] <;>
      exact ⟨_, he.symm⟩
  · intro he
    cases prop <;> simp only [GncPreSplit.add] at he ⊢ <;>
      (repeat' split at he) <;>
      simp_all [psFail, errLookup_errErase]
  · intro e he
    cases prop <;> simp only [GncPreSplit.add] at he ⊢ <;>
      (repeat' split at he) <;>
      simp_all [psFail, fmtErr, errLookup_errEmplace_errErase] <;>
      exact ⟨_, he.symm⟩

/-- Witness for C8: one failing call per mutator records exactly the
raised label-plus-cause message under the property type. -/
theorem c8_witness :
    errLookup (GncPreTrans.set envW ptEmpty .DATE "").1.m_errors .DATE
      = some ("Date: " ++ msgDateEmpty) ∧
    errLookup
        (GncPreSplit.set envW psEmpty .ACCOUNT "Nope").1.m_errors .ACCOUNT
      = some ("Account: " ++ msgAcctUnmapped) ∧
    errLookup
        (GncPreSplit.add envW psEmpty .AMOUNT "abc").1.m_errors .AMOUNT
      = some ("Amount: " ++ msgNoValidNumber) := by
  refine ⟨?_, ?_, ?_⟩
  · exact ((c8_error_bookkeeping envW ptEmpty psEmpty .DATE "").2.1
      ("Date: " ++ msgDateEmpty) (by decide)).1
  · exact ((c8_error_bookkeeping envW ptEmpty psEmpty .ACCOUNT
      "Nope").2.2.2.1 ("Account: " ++ msgAcctUnmapped) (by decide)).1
  · exact ((c8_error_bookkeeping envW ptEmpty psEmpty .AMOUNT
      "abc").2.2.2.2.2 ("Amount: " ++ msgNoValidNumber) (by decide)).1

/-- Claim C5: for the four amount-like property types, `add` on an empty
field behaves exactly like `set`; `add` on an occupied field stores the
parsed value plus the existing value; a later `set` overwrites with the
parsed value alone; `add` with any other property type changes no
field. -/
theorem c5_add_semantics (env : Env) (ps : GncPreSplit)
    (prop : GncTransPropType) (value : String) :
    (is_multi_col_prop prop = true → ps.amtField prop = none →
      ps.add env prop value = ps.set env prop value) ∧
    (∀ x p, is_multi_col_prop prop = true → ps.amtField prop = some x →
      parse_monetary env value ps.m_currency_format = .ok p →
      (ps.add env prop value).1.amtField prop = some (p + x) ∧
      (ps.add env prop value).2 = none) ∧
    (∀ p, is_multi_col_prop prop = true →
      parse_monetary env value ps.m_currency_format = .ok p →
      (ps.set env prop value).1.amtField prop = some p) ∧
    (is_multi_col_prop prop = false →
      (ps.add env prop value).1 =
        { ps with m_errors := errErase ps.m_errors prop } ∧
      (ps.add env prop value).2 = none) := by
  refine ⟨?_, ?_, ?_, ?_⟩
  · intro hm hf
    cases prop <;> simp [is_multi_col_prop, multi_col_props] at hm <;>
      simp only [GncPreSplit.amtField] at hf <;>
      cases hp : parse_monetary env value ps.m_currency_format <;>
      simp [GncPreSplit.add, GncPreSplit.set, hp, hf, psFail]
  · intro x p hm hf hp
    cases prop <;> simp [is_multi_col_prop, multi_col_props] at hm <;>
      simp only [GncPreSplit.amtField] at hf <;>
      simp [GncPreSplit.add, hp, hf, GncPreSplit.amtField, ratAdd_eq]
  · intro p hm hp
    cases prop <;> simp [is_multi_col_prop, multi_col_props] at hm <;>
      simp [GncPreSplit.set, hp, GncPreSplit.amtField]
  · intro hm
    cases prop <;> simp [is_multi_col_prop, multi_col_props] at hm <;>
      simp [GncPreSplit.add]

/-- Witness for C5: accumulating "10.00" then "5.00" under the
period-decimal selector yields 15, and a subsequent `set` of "2.00"
overwrites to 2. -/
theorem c5_witness :
    ((psEmpty.add envW .AMOUNT "10.00").1.add envW .AMOUNT
        "5.00").1.amtField .AMOUNT = some 15 ∧
    (((psEmpty.add envW .AMOUNT "10.00").1.add envW .AMOUNT
        "5.00").1.set envW .AMOUNT "2.00").1.amtField .AMOUNT
      = some 2 := by
  have h1 := (c5_add_semantics envW (psEmpty.add envW .AMOUNT "10.00").1
    .AMOUNT "5.00").2.1 10 5 (by decide) (by decide) (by decide)
  have h2 := (c5_add_semantics envW
    ((psEmpty.add envW .AMOUNT "10.00").1.add envW .AMOUNT "5.00").1
    .AMOUNT "2.00").2.2.1 2 (by decide) (by decide)
  refine ⟨?_, h2⟩
  have : (5 : Rat) + 10 = 15 := by rw [Rat.add_def']; decide
  rw [h1.1, this]

/-- Claim C6: `create_trans` never raises (it is total): on an already
materialized bag it returns nothing and changes nothing; when
essentials are missing it only reports and returns nothing; otherwise
it creates the header, marks the bag created and returns the draft
owning the header. -/
theorem c6_create_trans (pt : GncPreTrans) (currency : Commodity) :
    (pt.created = true → pt.create_trans currency = (pt, none, [])) ∧
    (pt.created = false → pt.verify_essentials ≠ [] →
      (pt.create_trans currency).1 = pt ∧
      (pt.create_trans currency).2.1 = none ∧
      (pt.create_trans currency).2.2 =
        [transEssentialsWarning pt.verify_essentials]) ∧
    (pt.created = false → pt.verify_essentials = [] →
      (pt.create_trans currency).1 = { pt with created := true } ∧
      ∃ d, (pt.create_trans currency).2.1 = some d ∧
        d.trans.splits = [] ∧ d.trans.num = pt.m_num ∧
        d.trans.description = pt.m_desc ∧ d.trans.notes = pt.m_notes ∧
        d.trans.currency =
          (match pt.m_commodity with
           | some c => if c.currency then c else currency
           | none => currency) ∧
        d.m_taccount = none ∧ d.m_tamount = none ∧
        (pt.create_trans currency).2.2 = []) := by
  refine ⟨?_, ?_, ?_⟩
  · intro h
    simp [GncPreTrans.create_trans, h]
  · intro h hne
    have hie : pt.verify_essentials.isEmpty = false := by
      cases hv : pt.verify_essentials with
      | nil => exact absurd hv hne
      | cons a t => rfl
    simp [GncPreTrans.create_trans, h, hie]
  · intro h he
    have hie : pt.verify_essentials.isEmpty = true := by rw [he]; rfl
    simp [GncPreTrans.create_trans, h, hie]

/-- Witness for C6: a created bag is inert, a bag missing essentials
yields no draft, and a complete bag materializes and is marked
created. -/
theorem c6_witness :
    GncPreTrans.create_trans ptCreated currUSD = (ptCreated, none, []) ∧
    (GncPreTrans.create_trans ptEmpty currUSD).2.1 = none ∧
    (GncPreTrans.create_trans ptReady currUSD).1 =
      { ptReady with created := true } := by
  refine ⟨(c6_create_trans ptCreated currUSD).1 (by decide), ?_, ?_⟩
  · exact ((c6_create_trans ptEmpty currUSD).2.1 (by decide)
      (by decide)).2.1
  · exact ((c6_create_trans ptReady currUSD).2.2 (by decide)
      (by decide)).1

theorem resolveValue_lookup (env : Env) (ps : GncPreSplit)
    (trans_curr : Commodity) (acct_comm : Option Commodity)
    (amount : Rat) (tamount : Option Rat) (time : Nat) (pr : PriceRec)
    (h3 : gnc_commodity_equiv (some trans_curr) acct_comm = false)
    (h4 : ((ps.m_tamount.isSome || ps.m_tamount_neg.isSome) &&
           ps.m_taccount.isSome &&
           gnc_commodity_equiv (some trans_curr)
             (ps.m_taccount.map Account.commodity)) = false)
    (h5 : ps.m_price = none)
    (h6 : env.priceLookup acct_comm trans_curr time = some pr) :
    resolveValue env ps trans_curr acct_comm amount tamount time =
      ((if gnc_commodity_equiv (some pr.currency) (some trans_curr) = true
        then ratMul amount pr.value
        else ratMul amount (ratInv pr.value)), false) := by
  simp only [resolveValue]
  rw [h3, h4, h5, h6]
  simp only [Bool.false_eq_true, if_false]
  by_cases h7 : gnc_commodity_equiv (some pr.currency) (some trans_curr)
      = true
  · rw [if_pos h7, if_pos h7]
  · rw [if_neg h7, if_neg h7]

theorem resolveTAmount_lookup (env : Env) (ps : GncPreSplit)
    (trans_curr : Commodity) (tacct : Account) (tvalue : Rat)
    (time : Nat) (pr2 : PriceRec)
    (h : gnc_commodity_equiv (some trans_curr)
      (some tacct.commodity) = false)
    (h5 : ps.m_price = none)
    (h6 : env.priceLookup (some tacct.commodity) trans_curr time
      = some pr2) :
    resolveTAmount env ps trans_curr tacct tvalue time =
      (some (if gnc_commodity_equiv (some pr2.currency)
               (some trans_curr) = true
             then ratMul tvalue (ratInv pr2.value)
             else ratMul tvalue pr2.value), false) := by
  simp only [resolveTAmount]
  rw [h, h5, h6]
  simp only [Bool.false_eq_true, if_false]
  by_cases h7 : gnc_commodity_equiv (some pr2.currency) (some trans_curr)
      = true
  · rw [if_pos h7, if_pos h7]
  · rw [if_neg h7, if_neg h7]

/-- Claim C7: when the split's value is resolved through the price
database, the rate multiplies the amount directly when the stored
price's quote currency equals the transaction currency and is inverted
otherwise; the transfer-side computation applies the inverse in the
symmetric cases. -/
theorem c7_price_direction (env : Env) (ps : GncPreSplit)
    (draft : DraftTransaction) (pr : PriceRec)
    (h0 : draft.trans.splits = [])
    (h1 : ps.created = false)
    (h2 : ps.verify_essentials = [])
    (h3 : gnc_commodity_equiv (some draft.trans.currency)
      (ps.m_account.map Account.commodity) = false)
    (h4 : ((ps.m_tamount.isSome || ps.m_tamount_neg.isSome) &&
           ps.m_taccount.isSome &&
           gnc_commodity_equiv (some draft.trans.currency)
             (ps.m_taccount.map Account.commodity)) = false)
    (h5 : ps.m_price = none)
    (h6 : env.priceLookup (ps.m_account.map Account.commodity)
      draft.trans.currency draft.trans.datePosted = some pr) :
    ((ps.create_split env draft).draft.trans.splits.head?.map
        SplitRec.value =
      some (if gnc_commodity_equiv (some pr.currency)
            (some draft.trans.currency) = true
         then ratMul (ratSub (ps.m_amount.getD 0) (ps.m_amount_neg.getD 0))
                pr.value
         else ratMul (ratSub (ps.m_amount.getD 0) (ps.m_amount_neg.getD 0))
                (ratInv pr.value))) ∧
    (∀ tacct pr2,
      ps.m_taccount = some tacct →
      ps.m_tamount = none → ps.m_tamount_neg = none →
      gnc_commodity_equiv (some draft.trans.currency)
        (some tacct.commodity) = false →
      env.priceLookup (some tacct.commodity) draft.trans.currency
        draft.trans.datePosted = some pr2 →
      ∃ s1 s2,
        (ps.create_split env draft).draft.trans.splits = [s1, s2] ∧
        s2.value = -s1.value ∧
        s2.amount =
          (if gnc_commodity_equiv (some pr2.currency)
              (some draft.trans.currency) = true
           then ratMul (-s1.value) (ratInv pr2.value)
           else ratMul (-s1.value) pr2.value)) := by
  have hie : ps.verify_essentials.isEmpty = true := by rw [h2]; rfl
  have hv := resolveValue_lookup env ps draft.trans.currency
    (ps.m_account.map Account.commodity)
    (ratSub (ps.m_amount.getD 0) (ps.m_amount_neg.getD 0))
    (if ps.m_tamount.isSome || ps.m_tamount_neg.isSome then
      some (ratSub (ps.m_tamount.getD 0) (ps.m_tamount_neg.getD 0))
     else none)
    draft.trans.datePosted pr h3 h4 h5 h6
  constructor
  · simp only [GncPreSplit.create_split, h1, hie, Bool.not_true,
      Bool.false_eq_true, if_false, hv]
    split
    · simp [trans_add_split, h0, deferHints]
    · split <;> simp [trans_add_split, h0, deferHints]
  · intro tacct pr2 htac htm htmn h8 h9
    have hv2 := resolveValue_lookup env ps draft.trans.currency
      (ps.m_account.map Account.commodity)
      (ratSub (ps.m_amount.getD 0) (ps.m_amount_neg.getD 0))
      none draft.trans.datePosted pr h3 h4 h5 h6
    have htp := resolveTAmount_lookup env ps draft.trans.currency tacct
      (-(resolveValue env ps draft.trans.currency
          (ps.m_account.map Account.commodity)
          (ratSub (ps.m_amount.getD 0) (ps.m_amount_neg.getD 0))
          none draft.trans.datePosted).1)
      draft.trans.datePosted pr2 h8 h5 h9
    simp only [GncPreSplit.create_split, h1, hie, Bool.not_true,
      Bool.false_eq_true, if_false, htac, htm, htmn,
      Option.isSome_none, Bool.or_self, Option.isNone_none, if_true, htp]
    simp only [trans_add_split, h0, List.nil_append, List.append_nil]
    refine ⟨_, _, rfl, rfl, ?_⟩
    rw [hv2]

/-- Witness for C7: with a price 2 quoted in the transaction currency
the first split's value is 100 × 2 = 200; the transfer side, whose
price 5 is quoted in the opposite direction, gets amount
−200 × 5 = −1000. -/
theorem c7_witness :
    (psBoth.create_split envPrices draftUSD).draft.trans.splits.head?.map
        SplitRec.value = some 200 ∧
    (psBoth.create_split envPrices draftUSD).draft.trans.splits.map
        SplitRec.amount = [100, -1000] := by
  constructor
  · have h := (c7_price_direction envPrices psBoth draftUSD ⟨2, currUSD⟩
      rfl rfl (by decide) (by decide) (by decide) rfl (by decide)).1
    rw [h]
    decide
  · decide

/-- Claim C1 (code behavior at the failing input): with a foreign
account commodity, no transfer shortcut, no explicit price and an empty
price database, `create_split` logs the no-price resolution failure but
still adds one split — with value 0 — to the transaction, and marks the
bag created. -/
theorem c1_code_creates_split_despite_failure :
    (psForeign.create_split envW draftUSD).draft.trans.splits =
      [{ account := some acctFoo, amount := 100, value := 0,
         action := none, memo := none, reconcile := none,
         reconcileDate := none }] ∧
    (psForeign.create_split envW draftUSD).logs = [msgNoPrice] ∧
    (psForeign.create_split envW draftUSD).ps.created = true := by
  exact ⟨by decide, by decide, by decide⟩
